import Mathlib

/-
Verification of the stitcher repository's coordination logic: the
configuration prompt tool (src/configure.py), the order-preserving
serialization helper (src/utils/sorted_dict.py), the camera/video feed
wrappers (src/app/util/feed.py) and the capture orchestrator
(src/app/util/capture.py).
-/

namespace Stitcher

/-- Scalar values stored in the settings profile: Python ints and strings. -/
inductive YVal where
  | int (n : Int)
  | str (s : String)
deriving DecidableEq

/-- Lexicographic order on character lists, the order Python uses to compare strings. -/
def charListLt : List Char → List Char → Bool
  | [], [] => false
  | [], _ :: _ => true
  | _ :: _, [] => false
  | a :: as, b :: bs => if a < b then true else if b < a then false else charListLt as bs

/-- Python string comparison a < b. -/
def strLt (a b : String) : Bool := charListLt a.data b.data

/-- One step of insertion sort on (key, value) entries, ordered by key. -/
def insertEntry (p : String × YVal) : List (String × YVal) → List (String × YVal)
  | [] => [p]
  | q :: qs => if strLt q.1 p.1 then q :: insertEntry p qs else p :: q :: qs

/-- Ascending sort of (key, value) entries by key. Models the Python list sort that
PyYAML applies to mapping items before emitting them; the profile keys are distinct,
so the comparison never goes past the key. -/
def pySortEntries : List (String × YVal) → List (String × YVal)
  | [] => []
  | p :: ps => insertEntry p (pySortEntries ps)

/-- UnsortableList overrides sort with a no-op (src/utils/sorted_dict.py, lines 13-14). -/
def UnsortableList.sort (xs : List (String × YVal)) : List (String × YVal) := xs

/-- PyYAML represent_mapping applied to a plain dict: the representer takes the items of
the mapping and sorts that list in place, so a plain dict is always dumped with its keys
in ascending order, whatever order they were inserted in. -/
def represent_mapping_plain (entries : List (String × YVal)) : List (String × YVal) :=
  pySortEntries entries

/-- PyYAML represent_mapping applied to an UnsortableOrderedDict
(src/utils/sorted_dict.py, lines 16-22): items() returns an UnsortableList, whose sort
method is a no-op, so the insertion order survives the dump. -/
def represent_mapping_unsortable (entries : List (String × YVal)) : List (String × YVal) :=
  UnsortableList.sort entries

/-- The settings dict literal built by configure.py, lines 30-38, with its keys in the
source insertion order. -/
def settings (left_index right_index : Int) (source_dir dest_dir key_frame : String)
    (width : Int) (format : String) : List (String × YVal) :=
  [("left-index", YVal.int left_index),
   ("right-index", YVal.int right_index),
   ("source-dir", YVal.str source_dir),
   ("dest-dir", YVal.str dest_dir),
   ("key-frame", YVal.str key_frame),
   ("width", YVal.int width),
   ("format", YVal.str format)]

/-- Numeric value of a list of decimal digit characters. -/
def digitsVal (cs : List Char) : Nat := cs.foldl (fun n c => 10 * n + (c.toNat - 48)) 0

/-- Python int(...) applied to an already stripped character list: an optional sign
followed by one or more decimal digits; anything else raises ValueError (none). -/
def pyIntChars : List Char → Option Int
  | [] => none
  | c :: cs =>
    if c = '-' then
      if cs ≠ [] ∧ cs.all Char.isDigit then some (-(digitsVal cs : Int)) else none
    else if c = '+' then
      if cs ≠ [] ∧ cs.all Char.isDigit then some ((digitsVal cs : Int)) else none
    else if (c :: cs).all Char.isDigit then some ((digitsVal (c :: cs) : Int)) else none

/-- Python int(raw_input(...)): surrounding whitespace is stripped, then an optional
sign and digits are parsed; none models the ValueError branch of configure.parse. -/
def pyInt (s : String) : Option Int :=
  pyIntChars (((s.data.dropWhile Char.isWhitespace).reverse.dropWhile Char.isWhitespace).reverse)

/-- Outcome of the tail of configure.parse: either the profile entries written to
config/profile.yml (listed in the order they are dumped), or the NameError raised at
the settings literal for the first numeric local that was never bound. -/
inductive ParseOutcome where
  | wrote (entries : List (String × YVal))
  | nameError (unbound : String)
deriving DecidableEq

/-- The message printed by each except-ValueError branch of configure.parse. -/
def errNumberMsg : String := "Please enter a number."

/-- Observable trace of one run of configure.parse on its seven input lines. -/
structure ParseRun where
  prompts : List String
  messages : List String
  reachedSerialization : Bool
  outcome : ParseOutcome
deriving DecidableEq

/-- configure.parse (src/configure.py, lines 8-40) as a function of the seven lines the
user types. Each try/except swallows the ValueError of a failed int conversion after
printing a message, so control always flows through all seven prompts and reaches the
serialization step at line 30; that step dumps a plain dict through
represent_mapping_plain, or raises NameError if a numeric local was never assigned. -/
def parse (l r sd dd kf w fmt : String) : ParseRun :=
  { prompts := [("Enter index of left camera: "),
                ("Enter index of right camer: "),
                ("Enter full path to image source directory: "),
                ("Enter full path to image output directory: "),
                ("Enter full path to key frame image: "),
                ("Enter image width: "),
                ("Enter image format: ")]
  , messages :=
      (if (pyInt l).isNone then [errNumberMsg] else [])
        ++ (if (pyInt r).isNone then [errNumberMsg] else [])
        ++ (if (pyInt w).isNone then [errNumberMsg] else [])
  , reachedSerialization := true
  , outcome :=
      match pyInt l, pyInt r, pyInt w with
      | some a, some b, some c =>
          ParseOutcome.wrote (represent_mapping_plain (settings a b sd dd kf c fmt))
      | none, _, _ => ParseOutcome.nameError ("left_index")
      | some _, none, _ => ParseOutcome.nameError ("right_index")
      | some _, some _, none => ParseOutcome.nameError ("width") }

/-- Claim C1: the claim says dumping the profile preserves the insertion order
[left-index, right-index, source-dir, dest-dir, key-frame, width, format]. In the code,
configure.py builds a plain dict and PyYAML sorts plain-dict items on dump, so the keys
are written in alphabetic order, not insertion order; the order-preserving
UnsortableOrderedDict shipped for exactly this purpose is never used by configure.py,
although dumping through it would indeed preserve the insertion order. -/
theorem c1_dump_alphabetic_order :
    ((represent_mapping_plain (settings 0 1 ("s") ("d") ("k") 640 ("png"))).map Prod.fst
      = [("dest-dir"), ("format"), ("key-frame"), ("left-index"),
         ("right-index"), ("source-dir"), ("width")])
  ∧ ((represent_mapping_plain (settings 0 1 ("s") ("d") ("k") 640 ("png"))).map Prod.fst
      ≠ [("left-index"), ("right-index"), ("source-dir"), ("dest-dir"),
         ("key-frame"), ("width"), ("format")])
  ∧ ((represent_mapping_unsortable (settings 0 1 ("s") ("d") ("k") 640 ("png"))).map Prod.fst
      = [("left-index"), ("right-index"), ("source-dir"), ("dest-dir"),
         ("key-frame"), ("width"), ("format")]) := by
  refine ⟨by decide, by decide, by decide⟩

/-- Claim C3: in every run of the configuration prompt tool where a numeric field
(left index, right index or width) receives non-numeric input, the message
"Please enter a number." is printed, all seven prompts are still issued exactly once
(no abort, no re-prompt), and control reaches the serialization step. -/
theorem c3_prompt_continues (l r sd dd kf w fmt : String)
    (h : pyInt l = none ∨ pyInt r = none ∨ pyInt w = none) :
    errNumberMsg ∈ (parse l r sd dd kf w fmt).messages
  ∧ (parse l r sd dd kf w fmt).prompts.length = 7
  ∧ (parse l r sd dd kf w fmt).reachedSerialization = true := by
  refine ⟨?_, rfl, rfl⟩
  rcases h with h | h | h <;> simp [parse, h]

/-- Witness for claim C3 at a concrete run: the left-index line is not a number. -/
theorem c3_prompt_continues_witness :
    pyInt ("abc") = none
  ∧ (errNumberMsg ∈ (parse ("abc") ("1") ("s") ("d") ("k") ("640") ("png")).messages
      ∧ (parse ("abc") ("1") ("s") ("d") ("k") ("640") ("png")).prompts.length = 7
      ∧ (parse ("abc") ("1") ("s") ("d") ("k") ("640") ("png")).reachedSerialization = true) :=
  ⟨by decide, c3_prompt_continues ("abc") ("1") ("s") ("d") ("k") ("640") ("png")
    (Or.inl (by decide))⟩

/-- A pixel frame: its dimensions plus a tag identifying which source frame it came
from. Pixel content is outside the model; the tag tracks frame identity. -/
structure Frame where
  height : Nat
  width : Nat
  tag : Nat
deriving DecidableEq

/-- A frame source (camera device or video file): the stream of frames it yields from
the moment it is opened. A source with no readable frame is the empty stream. -/
structure Device where
  frames : List Frame
deriving DecidableEq

/-- An open cv2.VideoCapture handle: the frames still to be delivered, plus a
generation counter that is bumped each time the device is released and reopened. -/
structure Capture where
  remaining : List Frame
  generation : Nat
deriving DecidableEq

/-- cv2.VideoCapture(source): a fresh handle positioned at the start of the stream. -/
def videoCapture (d : Device) (gen : Nat) : Capture := ⟨d.frames, gen⟩

/-- cv2 grab: advances past one frame and reports whether a frame was there. -/
def Capture.grab : Capture → Bool × Capture
  | ⟨[], g⟩ => (false, ⟨[], g⟩)
  | ⟨_ :: rest, g⟩ => (true, ⟨rest, g⟩)

/-- cv2 read: grab plus retrieve, returning the frame that was advanced past. -/
def Capture.read : Capture → Option Frame × Capture
  | ⟨[], g⟩ => (none, ⟨[], g⟩)
  | ⟨f :: rest, g⟩ => (some f, ⟨rest, g⟩)

/-- Modelled from the spec: correct_distortion lives in
app/stitcher/correction/corrector.py, outside the inspected sources; the spec
describes it as a pure function returning a corrected buffer of the same shape, so it
is modelled as preserving dimensions and frame identity. -/
def correct_distortion (f : Frame) : Frame := ⟨f.height, f.width, f.tag⟩

/-- imutils.resize with a width argument: width-driven, aspect-ratio preserving
(external library, per the spec's vision-library contract). -/
def imutilsResize (f : Frame) (w : Nat) : Frame := ⟨f.height * w / f.width, w, f.tag⟩

/-- CameraFeed state (src/app/util/feed.py, lines 47-57). -/
structure CameraFeed where
  feed_index : Nat
  device : Device
  camera_feed : Capture
  width : Nat
  height : Nat
  fps : Nat
deriving DecidableEq

/-- CameraFeed.__init__(feed_index, width, height, fps): opens the device. -/
def mkCameraFeed (index : Nat) (d : Device) (width height fps : Nat) : CameraFeed :=
  ⟨index, d, videoCapture d 0, width, height, fps⟩

/-- CameraFeed.is_valid (src/app/util/feed.py, lines 59-84): attempts one grab; on
success it reports valid, releases the handle and reopens the device; on failure it
reports invalid and leaves the handle as the failed grab left it. -/
def CameraFeed.is_valid (feed : CameraFeed) : Bool × CameraFeed :=
  let gc := feed.camera_feed.grab
  if gc.1 then
    (true, { feed with camera_feed := videoCapture feed.device (gc.2.generation + 1) })
  else
    (false, { feed with camera_feed := gc.2 })

/-- CameraFeed.has_next (src/app/util/feed.py, lines 86-90): a bare grab. -/
def CameraFeed.has_next (feed : CameraFeed) : Bool × CameraFeed :=
  let gc := feed.camera_feed.grab
  (gc.1, { feed with camera_feed := gc.2 })

/-- The frame-content part of CameraFeed.get_next (src/app/util/feed.py, lines
100-110): read one frame, optionally correct distortion, optionally resize to the
target width. A read that yields no frame makes the downstream correct/resize calls
fail; that crash is surfaced as none. The pacing part (lines 111-122) is modelled
separately by get_next_sleep and get_next_total_time. -/
def CameraFeed.get_next (feed : CameraFeed) (resize correct : Bool) :
    Option Frame × CameraFeed :=
  let rc := feed.camera_feed.read
  match rc.1 with
  | none => (none, { feed with camera_feed := rc.2 })
  | some f =>
    let f1 := if correct then correct_distortion f else f
    let f2 := if resize then imutilsResize f1 feed.width else f1
    (some f2, { feed with camera_feed := rc.2 })

/-- VideoFeed state (src/app/util/feed.py, lines 171-177). -/
structure VideoFeed where
  path : String
  device : Device
  video_feed : Capture
  width : Nat
  height : Nat
deriving DecidableEq

/-- VideoFeed.__init__(path, width, height): opens the file. -/
def mkVideoFeed (path : String) (d : Device) (width height : Nat) : VideoFeed :=
  ⟨path, d, videoCapture d 0, width, height⟩

/-- VideoFeed.is_valid (src/app/util/feed.py, lines 179-201): same probe as the
camera variant — grab once, and on success release and reopen the file. -/
def VideoFeed.is_valid (feed : VideoFeed) : Bool × VideoFeed :=
  let gc := feed.video_feed.grab
  if gc.1 then
    (true, { feed with video_feed := videoCapture feed.device (gc.2.generation + 1) })
  else
    (false, { feed with video_feed := gc.2 })

/-- VideoFeed.has_next (src/app/util/feed.py, lines 203-207): a bare grab. -/
def VideoFeed.has_next (feed : VideoFeed) : Bool × VideoFeed :=
  let gc := feed.video_feed.grab
  (gc.1, { feed with video_feed := gc.2 })

/-- VideoFeed.get_next (src/app/util/feed.py, lines 209-219): like the camera variant
but with no pacing. -/
def VideoFeed.get_next (feed : VideoFeed) (resize correct : Bool) :
    Option Frame × VideoFeed :=
  let rc := feed.video_feed.read
  match rc.1 with
  | none => (none, { feed with video_feed := rc.2 })
  | some f =>
    let f1 := if correct then correct_distortion f else f
    let f2 := if resize then imutilsResize f1 feed.width else f1
    (some f2, { feed with video_feed := rc.2 })

/-- Claim C4: probing validity (one grab, then on success release and reopen) reports
true for a source with at least one readable frame and leaves the reopened source able
to deliver that same first frame immediately, so the probe consumes nothing from the
caller's perspective; for a source with no readable frame it reports false and the
device is not reopened (the handle and its generation are untouched). Both the camera
and the video variants are covered. -/
theorem c4_is_valid_probe (d : Device) (p : String) :
    (∀ f rest, d.frames = f :: rest →
        ((mkCameraFeed 0 d 640 480 30).is_valid).1 = true
      ∧ ((mkCameraFeed 0 d 640 480 30).is_valid).2.camera_feed.generation
          = (mkCameraFeed 0 d 640 480 30).camera_feed.generation + 1
      ∧ ((((mkCameraFeed 0 d 640 480 30).is_valid).2).get_next false false).1 = some f
      ∧ ((mkVideoFeed p d 640 480).is_valid).1 = true
      ∧ ((mkVideoFeed p d 640 480).is_valid).2.video_feed.generation
          = (mkVideoFeed p d 640 480).video_feed.generation + 1
      ∧ ((((mkVideoFeed p d 640 480).is_valid).2).get_next false false).1 = some f)
  ∧ (d.frames = [] →
        ((mkCameraFeed 0 d 640 480 30).is_valid).1 = false
      ∧ ((mkCameraFeed 0 d 640 480 30).is_valid).2 = mkCameraFeed 0 d 640 480 30
      ∧ ((mkVideoFeed p d 640 480).is_valid).1 = false
      ∧ ((mkVideoFeed p d 640 480).is_valid).2 = mkVideoFeed p d 640 480) := by
  constructor
  · intro f rest h
    simp [mkCameraFeed, mkVideoFeed, videoCapture, CameraFeed.is_valid, VideoFeed.is_valid,
      Capture.grab, CameraFeed.get_next, VideoFeed.get_next, Capture.read, h]
  · intro h
    simp [mkCameraFeed, mkVideoFeed, videoCapture, CameraFeed.is_valid, VideoFeed.is_valid,
      Capture.grab, h]

/-- Witness for claim C4: a one-frame source is reported valid and an empty source is
reported invalid. -/
theorem c4_is_valid_probe_witness :
    ((mkCameraFeed 0 ⟨[⟨480, 640, 7⟩]⟩ 640 480 30).is_valid).1 = true
  ∧ ((((mkCameraFeed 0 ⟨[⟨480, 640, 7⟩]⟩ 640 480 30).is_valid).2).get_next false false).1
      = some ⟨480, 640, 7⟩
  ∧ ((mkCameraFeed 0 ⟨[]⟩ 640 480 30).is_valid).1 = false :=
  ⟨((c4_is_valid_probe ⟨[⟨480, 640, 7⟩]⟩ ("v")).1 ⟨480, 640, 7⟩ [] rfl).1,
   ((c4_is_valid_probe ⟨[⟨480, 640, 7⟩]⟩ ("v")).1 ⟨480, 640, 7⟩ [] rfl).2.2.1,
   ((c4_is_valid_probe ⟨[]⟩ ("v")).2 rfl).1⟩

/-- Claim C9: has_next is not a pure observer — it grabs, advancing past one frame.
On a source with frames f1, f2, ..., calling has_next and then get_next (resize and
correction off, to observe the raw frame) yields f2, not f1. Both feed variants. -/
theorem c9_has_next_advances (d : Device) (p : String) (f1 f2 : Frame) (rest : List Frame)
    (hframes : d.frames = f1 :: f2 :: rest) (hne : f1 ≠ f2) :
    ((mkCameraFeed 0 d 640 480 30).has_next).1 = true
  ∧ ((((mkCameraFeed 0 d 640 480 30).has_next).2).get_next false false).1 = some f2
  ∧ ((((mkCameraFeed 0 d 640 480 30).has_next).2).get_next false false).1 ≠ some f1
  ∧ ((mkVideoFeed p d 640 480).has_next).1 = true
  ∧ (((mkVideoFeed p d 640 480).has_next).2.get_next false false).1 = some f2
  ∧ (((mkVideoFeed p d 640 480).has_next).2.get_next false false).1 ≠ some f1 := by
  have hne2 : ¬ (f2 = f1) := fun hcon => hne hcon.symm
  simp [mkCameraFeed, mkVideoFeed, videoCapture, CameraFeed.has_next, VideoFeed.has_next,
    Capture.grab, CameraFeed.get_next, VideoFeed.get_next, Capture.read, hframes, hne2]

/-- Witness for claim C9 on a two-frame source with distinct frames. -/
theorem c9_has_next_advances_witness :
    (((mkCameraFeed 0 ⟨[⟨480, 640, 1⟩, ⟨480, 640, 2⟩]⟩ 640 480 30).has_next).2.get_next
        false false).1 = some ⟨480, 640, 2⟩
  ∧ (((mkVideoFeed ("v") ⟨[⟨480, 640, 1⟩, ⟨480, 640, 2⟩]⟩ 640 480).has_next).2.get_next
        false false).1 ≠ some ⟨480, 640, 1⟩ :=
  ⟨(c9_has_next_advances ⟨[⟨480, 640, 1⟩, ⟨480, 640, 2⟩]⟩ ("v") ⟨480, 640, 1⟩
      ⟨480, 640, 2⟩ [] rfl (by decide)).2.1,
   (c9_has_next_advances ⟨[⟨480, 640, 1⟩, ⟨480, 640, 2⟩]⟩ ("v") ⟨480, 640, 1⟩
      ⟨480, 640, 2⟩ [] rfl (by decide)).2.2.2.2.2⟩

/-- The empirically determined sleep/timing overhead constant subtracted at
src/app/util/feed.py, line 119. -/
def overhead_constant : ℚ := 72906 / 1000000

/-- frame_duration = 1.0 / fps (src/app/util/feed.py, line 57). -/
def frame_duration (fps : ℚ) : ℚ := 1 / fps

/-- time_left_adjusted computed by CameraFeed.get_next (src/app/util/feed.py, lines
111-119) from the frame duration and the measured processing time of the frame. -/
def time_left_adjusted (frameDuration elapsed : ℚ) : ℚ :=
  frameDuration - elapsed - overhead_constant

/-- The sleep requested by CameraFeed.get_next (src/app/util/feed.py, lines 120-121):
the adjusted remainder when positive, otherwise no sleep. -/
def get_next_sleep (frameDuration elapsed : ℚ) : ℚ :=
  if 0 < time_left_adjusted frameDuration elapsed then
    time_left_adjusted frameDuration elapsed
  else 0

/-- Total wall time of one get_next call: the processing time plus, when a sleep is
issued, the requested sleep plus the platform sleep/timing overhead that the constant
0.072906 calibrates. -/
def get_next_total_time (frameDuration elapsed sleepOverhead : ℚ) : ℚ :=
  elapsed + (if 0 < time_left_adjusted frameDuration elapsed then
    time_left_adjusted frameDuration elapsed + sleepOverhead
  else 0)

/-- Claim C2: when the processing time t is below frameDuration minus the overhead
constant, get_next sleeps a positive amount and — with the platform sleep overhead at
its calibrated value — the total time from fetch-start to return is exactly
frameDuration; when t is at least frameDuration minus the overhead constant, no sleep
is requested and the call returns as soon as processing completes. -/
theorem c2_pacing (frameDuration t : ℚ) :
    (t < frameDuration - overhead_constant →
        0 < get_next_sleep frameDuration t
      ∧ get_next_total_time frameDuration t overhead_constant = frameDuration)
  ∧ (frameDuration - overhead_constant ≤ t →
        get_next_sleep frameDuration t = 0
      ∧ get_next_total_time frameDuration t overhead_constant = t) := by
  constructor
  · intro h
    have hpos : 0 < time_left_adjusted frameDuration t := by
      unfold time_left_adjusted; linarith
    refine ⟨?_, ?_⟩
    · simpa [get_next_sleep, if_pos hpos] using hpos
    · unfold get_next_total_time
      rw [if_pos hpos]
      unfold time_left_adjusted
      ring
  · intro h
    have hneg : ¬ 0 < time_left_adjusted frameDuration t := by
      unfold time_left_adjusted; linarith
    constructor <;> simp [get_next_sleep, get_next_total_time, hneg]

/-- Witness for claim C2 at 10 fps: a fast frame (t = 1/100 s) is padded to exactly one
frame duration, and a slow frame (t = 1/10 s) triggers no sleep. -/
theorem c2_pacing_witness :
    ((1 : ℚ)/100 < frame_duration 10 - overhead_constant)
  ∧ get_next_total_time (frame_duration 10) (1/100) overhead_constant = frame_duration 10
  ∧ get_next_sleep (frame_duration 10) (1/10) = 0 := by
  have h1 : (1 : ℚ)/100 < frame_duration 10 - overhead_constant := by
    norm_num [frame_duration, overhead_constant]
  have h2 : frame_duration 10 - overhead_constant ≤ 1/10 := by
    norm_num [frame_duration, overhead_constant]
  exact ⟨h1, ((c2_pacing (frame_duration 10) (1/100)).1 h1).2,
    ((c2_pacing (frame_duration 10) (1/10)).2 h2).1⟩

/-- A local-clock reading: date and time of day down to the microsecond, as
datetime.datetime.now() returns. -/
structure Timestamp where
  year : Nat
  month : Nat
  day : Nat
  hour : Nat
  minute : Nat
  second : Nat
  microsecond : Nat
deriving DecidableEq

/-- One decimal digit character. -/
def digitChar (n : Nat) : Char := Char.ofNat (48 + n % 10)

/-- Zero-padded two-digit rendering, as strftime renders month, day, hour, minute and
second. -/
def pad2 (n : Nat) : List Char := [digitChar (n / 10), digitChar n]

/-- Zero-padded four-digit rendering, as strftime renders the year (modelled over the
four-digit year range). -/
def pad4 (n : Nat) : List Char :=
  [digitChar (n / 1000), digitChar (n / 100), digitChar (n / 10), digitChar n]

/-- strftime with format %Y-%m-%d-%H-%M-%S (src/app/util/capture.py, line 82): second
resolution, so the microsecond part of the clock reading does not appear. -/
def strftimeYmdHMS (t : Timestamp) : String :=
  String.mk (pad4 t.year ++ '-' :: pad2 t.month ++ '-' :: pad2 t.day
    ++ '-' :: pad2 t.hour ++ '-' :: pad2 t.minute ++ '-' :: pad2 t.second)

/-- create_filepath (src/app/util/capture.py, lines 77-84): joins the output folder
and the timestamp-named file with the path separator; now is the datetime.now()
reading taken at call time. -/
def create_filepath (output_folder filetype : String) (now : Timestamp) : String :=
  output_folder ++ ("/") ++ strftimeYmdHMS now ++ (".") ++ filetype

/-- What one invocation of capture.main does, as decided by its argument dispatch. -/
inductive CaptureAction where
  | singleFrame (index : Nat) (output_dir filetype : String)
  | singleVideo (index : Nat) (duration : ℚ) (fps : Nat) (output_dir filetype : String)
  | info (msg : String)
  | printError (msg : String)
deriving DecidableEq

/-- True when the action only prints a message. -/
def CaptureAction.isMessage : CaptureAction → Bool
  | CaptureAction.info _ => true
  | CaptureAction.printError _ => true
  | _ => false

/-- True when the action performs a capture. -/
def CaptureAction.isCapture : CaptureAction → Bool
  | CaptureAction.singleFrame _ _ _ => true
  | CaptureAction.singleVideo _ _ _ _ _ => true
  | _ => false

/-- capture.main (src/app/util/capture.py, lines 14-33) as a function of the parsed
--type and --cameras arguments; the capture branches carry the default arguments of
capture_single_frame and capture_single_video. -/
def capture_main (capture_type : String) (num_cameras : Int) : CaptureAction :=
  if capture_type = ("frame") then
    if num_cameras = 1 then CaptureAction.singleFrame 0 ("out/captured_frames") ("jpg")
    else CaptureAction.info (("You chose to capture frames for ")
      ++ toString num_cameras ++ (" cameras."))
  else if capture_type = ("video") then
    if num_cameras = 1 then
      CaptureAction.singleVideo 0 5 30 ("out/captured_videos") ("avi")
    else CaptureAction.info (("You chose to capture video for ")
      ++ toString num_cameras ++ (" cameras."))
  else CaptureAction.printError ("Please provide a proper capture argument.")

/-- CameraFeed.ramp (src/app/util/feed.py, lines 124-131): num_frames plain get_next
calls. none models the crash when a read comes back empty and the downstream
correction call fails. -/
def rampFeed : Nat → CameraFeed → Option CameraFeed
  | 0, feed => some feed
  | n + 1, feed =>
    match feed.get_next true true with
    | (some _, feed2) => rampFeed n feed2
    | (none, _) => none

/-- capture_single_frame (src/app/util/capture.py, lines 35-48): opens the camera,
ramps 30 frames, fetches one frame, writes it to a timestamp-named file under the
output directory, closes the feed. The value is the list of files written; none
models a crash on an empty frame read. -/
def capture_single_frame (d : Device) (output_dir filetype : String) (now : Timestamp) :
    Option (List String) :=
  match rampFeed 30 (mkCameraFeed 0 d 640 480 30) with
  | none => none
  | some feed1 =>
    match feed1.get_next true true with
    | (none, _) => none
    | (some _, _) => some [create_filepath output_dir filetype now]

/-- Observable events of one capture_single_video run, in program order. -/
inductive VidEv where
  | opened (index : Nat) (feedFps : Nat)
  | ramped (numFrames : Nat)
  | fetched (tag : Nat)
  | writerCreated (width height fps : Nat)
  | wroteFrame (tag : Nat)
  | writerReleased
  | feedClosed
deriving DecidableEq

/-- Result of one capture_single_video run: its events and whether releasing the
writer raised AttributeError because the writer was never created. -/
structure VidRun where
  events : List VidEv
  attrError : Bool
deriving DecidableEq

/-- Number of iterations the capture loop performs: the leading checks whose elapsed
value is still below the requested duration. -/
def loopIters (duration : ℚ) (checks : List ℚ) : Nat :=
  (checks.takeWhile (fun t => decide (t < duration))).length

/-- The while loop of capture_single_video (src/app/util/capture.py, lines 64-70).
checks are the successive values of time.time() - start_time observed at the loop
head; the body runs while that elapsed value is below the requested duration. The
writer is created on the first iteration with the dimensions of the first processed
frame. Returns the loop events, the writer state and the feed afterwards; none models
a crash on an empty frame read. -/
def videoLoop (duration : ℚ) (fps : Nat) :
    List ℚ → CameraFeed → Option (Nat × Nat) →
      Option (List VidEv × Option (Nat × Nat) × CameraFeed)
  | [], feed, writer => some ([], writer, feed)
  | c :: cs, feed, writer =>
    if c < duration then
      match feed.get_next true true with
      | (none, _) => none
      | (some fr, feed2) =>
        match writer with
        | none =>
          match videoLoop duration fps cs feed2 (some (fr.width, fr.height)) with
          | none => none
          | some (evs, w2, feed3) =>
            some (VidEv.fetched fr.tag :: VidEv.writerCreated fr.width fr.height fps
              :: VidEv.wroteFrame fr.tag :: evs, w2, feed3)
        | some wh =>
          match videoLoop duration fps cs feed2 (some wh) with
          | none => none
          | some (evs, w2, feed3) =>
            some (VidEv.fetched fr.tag :: VidEv.wroteFrame fr.tag :: evs, w2, feed3)
    else some ([], writer, feed)

/-- capture_single_video (src/app/util/capture.py, lines 50-75): opens
CameraFeed(index) — the fps argument is not passed on, so the feed keeps its default
fps of 30 — then calls ramp(fps), so the requested fps is used as the ramp frame
count, builds the output path, runs the capture loop, then releases the writer and
closes the feed. Releasing a writer that was never created (still None) raises
AttributeError, so the close is skipped on that path. none models a crash on an empty
frame read. -/
def capture_single_video (d : Device) (checks : List ℚ) (index : Nat) (duration : ℚ)
    (fps : Nat) (output_dir filetype : String) (now : Timestamp) : Option VidRun :=
  match rampFeed fps (mkCameraFeed index d 640 480 30) with
  | none => none
  | some feed1 =>
    let _filepath := create_filepath output_dir filetype now
    match videoLoop duration fps checks feed1 none with
    | none => none
    | some (evs, writer, _feedEnd) =>
      match writer with
      | none => some ⟨VidEv.opened index 30 :: VidEv.ramped fps :: evs, true⟩
      | some _ =>
        some ⟨VidEv.opened index 30 :: VidEv.ramped fps
          :: (evs ++ [VidEv.writerReleased, VidEv.feedClosed]), false⟩

/-- The processing that get_next applies to a raw frame with resize and correction on. -/
def processFrame (w : Nat) (f : Frame) : Frame := imutilsResize (correct_distortion f) w

/-- The fetch/write event pairs of the steady-state capture loop, one pair per frame. -/
def fetchWriteEvents (frames : List Frame) : List VidEv :=
  frames.flatMap (fun f => [VidEv.fetched f.tag, VidEv.wroteFrame f.tag])

theorem loopIters_nil (duration : ℚ) : loopIters duration [] = 0 := rfl

theorem loopIters_cons_pos {duration c : ℚ} (cs : List ℚ) (h : c < duration) :
    loopIters duration (c :: cs) = loopIters duration cs + 1 := by
  simp [loopIters, List.takeWhile_cons, h]

theorem loopIters_cons_neg {duration c : ℚ} (cs : List ℚ) (h : ¬ c < duration) :
    loopIters duration (c :: cs) = 0 := by
  simp [loopIters, List.takeWhile_cons, h]

theorem rampFeed_drop (n : Nat) :
    ∀ feed : CameraFeed, n ≤ feed.camera_feed.remaining.length →
      rampFeed n feed = some { feed with camera_feed :=
        ⟨feed.camera_feed.remaining.drop n, feed.camera_feed.generation⟩ } := by
  induction n with
  | zero => intro feed _; rfl
  | succ n ih =>
    intro feed h
    obtain ⟨fi, dev, ⟨rem, gen⟩, w, ht, fp⟩ := feed
    cases rem with
    | nil => simp at h
    | cons f rest =>
      have h2 : n ≤ rest.length := by
        simpa using Nat.le_of_succ_le_succ (by simpa using h)
      simp only [rampFeed, CameraFeed.get_next, Capture.read]
      rw [ih ⟨fi, dev, ⟨rest, gen⟩, w, ht, fp⟩ h2]
      simp

theorem strftime_length (t : Timestamp) : (strftimeYmdHMS t).length = 19 := rfl

/-- Claim C8: filename generation is deterministic in the clock second — two clock
readings that agree down to the second (the sub-second part may differ) give the same
filepath, and that filepath has the form folder/<YYYY-MM-DD-HH-MM-SS>.<ext>. -/
theorem c8_filename_deterministic (folder ext : String) (t1 t2 : Timestamp)
    (hy : t1.year = t2.year) (hmo : t1.month = t2.month) (hda : t1.day = t2.day)
    (hh : t1.hour = t2.hour) (hmi : t1.minute = t2.minute) (hs : t1.second = t2.second) :
    create_filepath folder ext t1 = create_filepath folder ext t2
  ∧ create_filepath folder ext t1
      = folder ++ ("/") ++ String.mk (pad4 t1.year ++ '-' :: pad2 t1.month
          ++ '-' :: pad2 t1.day ++ '-' :: pad2 t1.hour ++ '-' :: pad2 t1.minute
          ++ '-' :: pad2 t1.second) ++ (".") ++ ext := by
  obtain ⟨y1, mo1, d1, h1, mi1, s1, u1⟩ := t1
  obtain ⟨y2, mo2, d2, h2, mi2, s2, u2⟩ := t2
  simp only at hy hmo hda hh hmi hs
  subst hy hmo hda hh hmi hs
  exact ⟨rfl, rfl⟩

/-- Witness for claim C8: two readings in the same second, microseconds apart, give
identical filenames. -/
theorem c8_filename_deterministic_witness :
    create_filepath ("out/captured_frames") ("jpg") ⟨2026, 10, 12, 1, 2, 3, 0⟩
      = create_filepath ("out/captured_frames") ("jpg") ⟨2026, 10, 12, 1, 2, 3, 999999⟩ :=
  (c8_filename_deterministic ("out/captured_frames") ("jpg")
    ⟨2026, 10, 12, 1, 2, 3, 0⟩ ⟨2026, 10, 12, 1, 2, 3, 999999⟩
    rfl rfl rfl rfl rfl rfl).1

/-- Claim C5: --type frame with --cameras 1 runs exactly the single-frame capture;
--type video with --cameras 1 runs exactly the video capture with default duration 5
seconds and 30 fps; every other combination only prints a guidance message and
performs no capture. -/
theorem c5_dispatch :
    capture_main ("frame") 1 = CaptureAction.singleFrame 0 ("out/captured_frames") ("jpg")
  ∧ capture_main ("video") 1 = CaptureAction.singleVideo 0 5 30 ("out/captured_videos") ("avi")
  ∧ ∀ (t : String) (n : Int), ¬ (t = ("frame") ∧ n = 1) → ¬ (t = ("video") ∧ n = 1) →
      (capture_main t n).isMessage = true ∧ (capture_main t n).isCapture = false := by
  refine ⟨by decide, by decide, ?_⟩
  intro t n h1 h2
  by_cases ht : t = ("frame")
  · have hn : ¬ n = 1 := fun hcon => h1 ⟨ht, hcon⟩
    simp [capture_main, ht, hn, CaptureAction.isMessage, CaptureAction.isCapture]
  · by_cases hv : t = ("video")
    · have hn : ¬ n = 1 := fun hcon => h2 ⟨hv, hcon⟩
      simp [capture_main, ht, hv, hn, CaptureAction.isMessage, CaptureAction.isCapture]
    · simp [capture_main, ht, hv, CaptureAction.isMessage, CaptureAction.isCapture]

/-- Witness for claim C5: frame type with two cameras only prints a message. -/
theorem c5_dispatch_witness :
    (capture_main ("frame") 2).isMessage = true
  ∧ (capture_main ("frame") 2).isCapture = false :=
  c5_dispatch.2.2 ("frame") 2 (by decide) (by decide)

/-- Claim C7 counterexample: on a 31-frame source at a concrete clock reading,
single-frame capture produces exactly one .jpg file under out/captured_frames, but
the timestamp-derived basename has 19 characters, not 14 as the claim states. -/
theorem c7_counterexample :
    capture_single_frame ⟨List.replicate 31 ⟨480, 640, 0⟩⟩ ("out/captured_frames")
        ("jpg") ⟨2026, 10, 12, 0, 0, 0, 0⟩
      = some [("out/captured_frames/2026-10-12-00-00-00.jpg")]
  ∧ (strftimeYmdHMS ⟨2026, 10, 12, 0, 0, 0, 0⟩).length = 19
  ∧ (strftimeYmdHMS ⟨2026, 10, 12, 0, 0, 0, 0⟩).length ≠ 14 :=
  ⟨by decide, rfl, by decide⟩

/-- Claim C7 as amended: single-frame capture on a source with at least 31 readable
frames (30 ramp frames plus the captured one) produces exactly one new file under
out/captured_frames, with extension .jpg and a 19-character timestamp-derived
basename — the 14 timestamp digits separated by 5 hyphens. -/
theorem c7_amended (d : Device) (now : Timestamp) (hframes : 31 ≤ d.frames.length) :
    capture_single_frame d ("out/captured_frames") ("jpg") now
      = some [("out/captured_frames") ++ ("/") ++ strftimeYmdHMS now ++ (".") ++ ("jpg")]
  ∧ (strftimeYmdHMS now).length = 19 := by
  refine ⟨?_, rfl⟩
  have h30 : 30 ≤ (mkCameraFeed 0 d 640 480 30).camera_feed.remaining.length := by
    simp only [mkCameraFeed, videoCapture]
    omega
  have hdropped : (d.frames.drop 30).length = d.frames.length - 30 := by
    simp
  have hne : d.frames.drop 30 ≠ [] := by
    intro hcon
    rw [hcon] at hdropped
    simp at hdropped
    omega
  obtain ⟨f0, rest0, hsplit⟩ := List.exists_cons_of_ne_nil hne
  unfold capture_single_frame
  rw [rampFeed_drop 30 (mkCameraFeed 0 d 640 480 30) h30]
  simp only [mkCameraFeed, videoCapture, CameraFeed.get_next, Capture.read, hsplit,
    create_filepath]

/-- Witness for claim C7 as amended, on a concrete 31-frame source. -/
theorem c7_amended_witness :
    capture_single_frame ⟨List.replicate 31 ⟨480, 640, 5⟩⟩ ("out/captured_frames")
        ("jpg") ⟨2026, 10, 12, 1, 2, 3, 4⟩
      = some [("out/captured_frames") ++ ("/")
          ++ strftimeYmdHMS ⟨2026, 10, 12, 1, 2, 3, 4⟩ ++ (".") ++ ("jpg")] :=
  (c7_amended ⟨List.replicate 31 ⟨480, 640, 5⟩⟩ ⟨2026, 10, 12, 1, 2, 3, 4⟩ (by decide)).1

theorem videoLoop_writer_some (duration : ℚ) (fps : Nat) :
    ∀ (checks : List ℚ) (feed : CameraFeed) (wh : Nat × Nat),
      loopIters duration checks ≤ feed.camera_feed.remaining.length →
      videoLoop duration fps checks feed (some wh)
        = some (fetchWriteEvents (feed.camera_feed.remaining.take (loopIters duration checks)),
            some wh,
            { feed with camera_feed :=
                ⟨feed.camera_feed.remaining.drop (loopIters duration checks),
                 feed.camera_feed.generation⟩ }) := by
  intro checks
  induction checks with
  | nil => intro feed wh _; rfl
  | cons c cs ih =>
    intro feed wh h
    by_cases hc : c < duration
    · rw [loopIters_cons_pos cs hc] at h ⊢
      obtain ⟨fi, dev, ⟨rem, gen⟩, w, ht, fp⟩ := feed
      cases rem with
      | nil => simp at h
      | cons f rest =>
        have h2 : loopIters duration cs ≤ rest.length := by
          simpa using Nat.le_of_succ_le_succ (by simpa using h)
        simp only [videoLoop, if_pos hc, CameraFeed.get_next, Capture.read]
        rw [ih ⟨fi, dev, ⟨rest, gen⟩, w, ht, fp⟩ wh h2]
        simp [fetchWriteEvents, imutilsResize, correct_distortion]
    · rw [loopIters_cons_neg cs hc]
      simp [videoLoop, if_neg hc, fetchWriteEvents]

/-- Claim C6 counterexample: requesting a 60 fps video capture still opens the camera
source with its default fps of 30 — the opened-feed event records fps 30, not the
requested 60, refuting "opens a Camera Source at the requested fps". -/
theorem c6_counterexample :
    (capture_single_video ⟨List.replicate 61 ⟨480, 640, 0⟩⟩ [0, 6] 0 5 60
        ("out/captured_videos") ("avi") ⟨2026, 10, 12, 0, 0, 0, 0⟩).map
        (fun run => run.events.take 2)
      = some [VidEv.opened 0 30, VidEv.ramped 60]
  ∧ VidEv.opened 0 30 ≠ VidEv.opened 0 60 :=
  ⟨by decide, by decide⟩

/-- Claim C6 as amended: timed video capture opens the camera source with its default
fps of 30 (the requested fps is not passed to the feed; it is used as the ramp frame
count and the writer fps), ramps, then loops fetching frames and appending them to
the writer while the wall-clock elapsed time is below durationSeconds, takes the
output dimensions from the first captured frame, and finally releases the writer and
then closes the source, in that order. Stated for a run whose first loop check is
still inside the duration and whose source has enough frames for the ramp and the
loop. -/
theorem c6_amended (d : Device) (index : Nat) (duration : ℚ) (fps : Nat)
    (c0 : ℚ) (rest : List ℚ) (odir ft : String) (now : Timestamp)
    (h0 : c0 < duration)
    (hframes : fps + loopIters duration (c0 :: rest) ≤ d.frames.length) :
    ∃ f0 rest0, d.frames.drop fps = f0 :: rest0
  ∧ capture_single_video d (c0 :: rest) index duration fps odir ft now
      = some ⟨VidEv.opened index 30 :: VidEv.ramped fps :: VidEv.fetched f0.tag
          :: VidEv.writerCreated (processFrame 640 f0).width (processFrame 640 f0).height fps
          :: VidEv.wroteFrame f0.tag
          :: (fetchWriteEvents (rest0.take (loopIters duration rest))
              ++ [VidEv.writerReleased, VidEv.feedClosed]), false⟩ := by
  have hiter : loopIters duration (c0 :: rest) = loopIters duration rest + 1 :=
    loopIters_cons_pos rest h0
  have hfle : fps ≤ d.frames.length := by omega
  have hdlen : (d.frames.drop fps).length = d.frames.length - fps := by simp
  have hne : d.frames.drop fps ≠ [] := by
    intro hcon
    rw [hcon] at hdlen
    simp at hdlen
    omega
  obtain ⟨f0, rest0, hsplit⟩ := List.exists_cons_of_ne_nil hne
  have hr0 : rest0.length = d.frames.length - fps - 1 := by
    rw [hsplit] at hdlen
    simp at hdlen
    omega
  have h2 : loopIters duration rest ≤ rest0.length := by omega
  refine ⟨f0, rest0, hsplit, ?_⟩
  have h30 : fps ≤ (mkCameraFeed index d 640 480 30).camera_feed.remaining.length := by
    simpa [mkCameraFeed, videoCapture] using hfle
  unfold capture_single_video
  rw [rampFeed_drop fps (mkCameraFeed index d 640 480 30) h30]
  simp only [mkCameraFeed, videoCapture, hsplit]
  simp only [videoLoop, if_pos h0, CameraFeed.get_next, Capture.read, if_true]
  rw [videoLoop_writer_some duration fps rest ⟨index, d, ⟨rest0, 0⟩, 640, 480, 30⟩
    ((imutilsResize (correct_distortion f0) 640).width,
     (imutilsResize (correct_distortion f0) 640).height) (by simpa using h2)]
  simp [processFrame, imutilsResize, correct_distortion]

/-- Witness for claim C6 as amended: a three-frame source, a requested fps of 2 (two
ramp frames), and a trace whose first check is inside the 5 s duration and whose
second is beyond it. -/
theorem c6_amended_witness :
    ∃ f0 rest0,
      (⟨[⟨480, 640, 1⟩, ⟨480, 640, 2⟩, ⟨480, 640, 3⟩]⟩ : Device).frames.drop 2 = f0 :: rest0
  ∧ capture_single_video ⟨[⟨480, 640, 1⟩, ⟨480, 640, 2⟩, ⟨480, 640, 3⟩]⟩ (0 :: [6]) 0 5 2
      ("out/captured_videos") ("avi") ⟨2026, 10, 12, 0, 0, 0, 0⟩
      = some ⟨VidEv.opened 0 30 :: VidEv.ramped 2 :: VidEv.fetched f0.tag
          :: VidEv.writerCreated (processFrame 640 f0).width (processFrame 640 f0).height 2
          :: VidEv.wroteFrame f0.tag
          :: (fetchWriteEvents (rest0.take (loopIters 5 [6]))
              ++ [VidEv.writerReleased, VidEv.feedClosed]), false⟩ :=
  c6_amended ⟨[⟨480, 640, 1⟩, ⟨480, 640, 2⟩, ⟨480, 640, 3⟩]⟩ 0 5 2 0 [6]
    ("out/captured_videos") ("avi") ⟨2026, 10, 12, 0, 0, 0, 0⟩ (by norm_num) (by decide)

/-- Claim C10: when durationSeconds is nonpositive (and the loop-head clock readings
are nonnegative, as elapsed times are), the capture loop body never executes, so the
writer is never created; releasing the unset writer raises AttributeError, and on
that error path the feed is never closed — the run's events are exactly the open and
the ramp, with no fetch, no writer release and no feed close. -/
theorem c10_nonpositive_duration (d : Device) (checks : List ℚ) (index : Nat)
    (duration : ℚ) (fps : Nat) (odir ft : String) (now : Timestamp)
    (hdur : duration ≤ 0) (hchecks : ∀ c ∈ checks, 0 ≤ c)
    (hframes : fps ≤ d.frames.length) :
    capture_single_video d checks index duration fps odir ft now
      = some ⟨[VidEv.opened index 30, VidEv.ramped fps], true⟩
  ∧ VidEv.feedClosed ∉ [VidEv.opened index 30, VidEv.ramped fps]
  ∧ VidEv.writerReleased ∉ [VidEv.opened index 30, VidEv.ramped fps]
  ∧ ∀ g, VidEv.fetched g ∉ [VidEv.opened index 30, VidEv.ramped fps] := by
  have h30 : fps ≤ (mkCameraFeed index d 640 480 30).camera_feed.remaining.length := by
    simpa [mkCameraFeed, videoCapture] using hframes
  refine ⟨?_, by simp, by simp, by simp⟩
  unfold capture_single_video
  rw [rampFeed_drop fps (mkCameraFeed index d 640 480 30) h30]
  cases checks with
  | nil => rfl
  | cons c cs =>
    have hc : ¬ c < duration := by
      have := hchecks c (by simp)
      intro hcon
      linarith
    simp [videoLoop, if_neg hc]

/-- Witness for claim C10: a one-frame source, a one-frame ramp, a zero duration and a
single nonnegative clock reading. -/
theorem c10_nonpositive_duration_witness :
    capture_single_video ⟨[⟨480, 640, 1⟩]⟩ [0] 0 0 1 ("out/captured_videos") ("avi")
        ⟨2026, 10, 12, 0, 0, 0, 0⟩
      = some ⟨[VidEv.opened 0 30, VidEv.ramped 1], true⟩ :=
  (c10_nonpositive_duration ⟨[⟨480, 640, 1⟩]⟩ [0] 0 0 1 ("out/captured_videos") ("avi")
    ⟨2026, 10, 12, 0, 0, 0, 0⟩ (by norm_num) (by norm_num) (by decide)).1

end Stitcher
